import Mathlib

/-!
Verification of the Shopify-to-WhatsApp automation service.

The JavaScript source is shallowly embedded: every handler is modelled as a
pure function from its inputs (the parsed webhook payload, the order record
read from the database, the clock value Date.now(), and the messaging
provider's HTTP response where the code consults it) to the side effects it
performs (the list of WhatsApp template dispatches, the list of Shopify
order-note writes, and the database record it persists).  JavaScript strings
are Lean strings; an absent or undefined string field is modelled as the
empty string "", which the code treats identically (both are falsy under the
JS `or` idiom a || b).  Timestamps are naturals in milliseconds; the
truncated natural subtraction now - createdAt agrees with the JS comparison
`now - createdAt > T` because a negative JS difference and a truncated-to-0
natural difference both fail the strict comparison.
-/

/-! ## Environment configuration (src/index.js, src/unnamed/part_002)

DEFAULT_COUNTRY_CODE defaults to "92" (Pakistan) in every copy of the
service.  WHATSAPP_NUMBER_ID is an opaque environment string; its concrete
value never influences control flow, so any placeholder serves. -/

def DEFAULT_COUNTRY_CODE : String := "92"

def WHATSAPP_NUMBER_ID : String := "123456789012345"

/-- Models the JavaScript idiom `a || b` on string fields: an absent field is
the empty string and is falsy, so the right operand is used. -/
def jsOr (a b : String) : String := if a = "" then b else a

/-- Models JavaScript String.prototype.toUpperCase on the character list. -/
def jsToUpper (s : String) : String := String.mk (s.data.map Char.toUpper)

/-- Models JavaScript String.prototype.toLowerCase on the character list. -/
def jsToLower (s : String) : String := String.mk (s.data.map Char.toLower)

/-! ## Phone normalizer (src/index.js:40-55, identical copies in
src/unnamed/part_000, part_001, part_002)

The JS body first strips every non-digit with replace(/\D/g, ""), then
branches on the digit string.  The four returns all produce a digit list, so
the branch logic is factored into normalizeDigits; normalizePhone performs
the null guards and the final string packaging exactly as the source does. -/

def normalizeDigits (digits : List Char) (defaultCC : String) : List Char :=
  if List.isPrefixOf ['0'] digits ∧ defaultCC ≠ "" then
    defaultCC.data ++ digits.drop 1
  else if defaultCC ≠ "" ∧ List.isPrefixOf defaultCC.data digits then
    digits
  else if defaultCC ≠ "" ∧ digits.length ≤ 10 then
    defaultCC.data ++ digits
  else
    digits

/-- Embeds normalizePhone(raw, defaultCC).  `if (!raw) return null` and
`if (!digits) return null` are the two none branches; otherwise the digit
string is rewritten by the branch chain of the source. -/
def normalizePhone (raw : String) (defaultCC : String) : Option String :=
  if raw = "" then none
  else
    let digits : List Char := raw.data.filter Char.isDigit
    if digits = [] then none
    else some (String.mk (normalizeDigits digits defaultCC))

/-- Models calling normalizePhone on a possibly-null JS value: on null the
`if (!raw)` guard returns null immediately. -/
def normalizePhoneOpt (raw : Option String) (defaultCC : String) : Option String :=
  match raw with
  | none => none
  | some s => normalizePhone s defaultCC

/-! ## Helper lemmas about digit lists -/

theorem mem_filter_isDigit {l : List Char} {c : Char}
    (h : c ∈ l.filter Char.isDigit) : c.isDigit = true :=
  (List.mem_filter.mp h).2

theorem filter_isDigit_of_all {l : List Char}
    (h : ∀ c ∈ l, c.isDigit = true) : l.filter Char.isDigit = l :=
  List.filter_eq_self.mpr h

theorem string_mk_ne_empty {l : List Char} (h : l ≠ []) : String.mk l ≠ "" := by
  intro hc
  exact h (by simpa using congrArg String.data hc)

theorem isPrefixOf_zero_nine (t : List Char) :
    List.isPrefixOf ['0'] ('9' :: t) = false := by
  have h : (('0' : Char) == '9') = false := by decide
  simp [List.isPrefixOf, h]

theorem isPrefixOf_nine_two (t : List Char) :
    List.isPrefixOf ['9', '2'] ('9' :: '2' :: t) = true := by
  simp [List.isPrefixOf]

/-- The default country code "92" consists of digit characters only. -/
theorem defaultCC_data : DEFAULT_COUNTRY_CODE.data = ['9', '2'] := rfl

theorem normalizeDigits_ne_nil (defaultCC : String) {d : List Char} (hd : d ≠ []) :
    normalizeDigits d defaultCC ≠ [] := by
  unfold normalizeDigits
  split
  · next h =>
    intro hc
    rcases List.append_eq_nil.mp hc with ⟨h1, _⟩
    exact h.2 (by simpa using congrArg String.mk h1)
  · split
    · exact hd
    · split
      · intro hc
        exact hd (List.append_eq_nil.mp hc).2
      · exact hd

theorem normalizeDigits_all_digit {defaultCC : String} {d : List Char}
    (hcc : ∀ c ∈ defaultCC.data, c.isDigit = true)
    (hd : ∀ c ∈ d, c.isDigit = true) :
    ∀ c ∈ normalizeDigits d defaultCC, c.isDigit = true := by
  unfold normalizeDigits
  split
  · intro c hc
    rcases List.mem_append.mp hc with h | h
    · exact hcc c h
    · exact hd c (List.mem_of_mem_drop h)
  · split
    · exact hd
    · split
      · intro c hc
        rcases List.mem_append.mp hc with h | h
        · exact hcc c h
        · exact hd c h
      · exact hd

/-- Applying the branch chain a second time with country code "92" changes
nothing: every branch output either already carries the "92" prefix (and
therefore cannot start with '0') or was returned untouched by the final
branch, whose guards still fail. -/
theorem normalizeDigits_92_idem (d : List Char) :
    normalizeDigits (normalizeDigits d DEFAULT_COUNTRY_CODE) DEFAULT_COUNTRY_CODE
      = normalizeDigits d DEFAULT_COUNTRY_CODE := by
  have hne : DEFAULT_COUNTRY_CODE ≠ "" := by decide
  by_cases h0 : List.isPrefixOf ['0'] d = true
  · have step1 : normalizeDigits d DEFAULT_COUNTRY_CODE = '9' :: '2' :: d.drop 1 := by
      unfold normalizeDigits
      rw [if_pos ⟨h0, hne⟩]
      rfl
    rw [step1]
    unfold normalizeDigits
    rw [if_neg (by simp [isPrefixOf_zero_nine]),
      if_pos ⟨hne, by rw [defaultCC_data]; exact isPrefixOf_nine_two _⟩]
  · by_cases h92 : List.isPrefixOf DEFAULT_COUNTRY_CODE.data d = true
    · have step1 : normalizeDigits d DEFAULT_COUNTRY_CODE = d := by
        unfold normalizeDigits
        rw [if_neg (by simp [h0]), if_pos ⟨hne, h92⟩]
      rw [step1]
      unfold normalizeDigits
      rw [if_neg (by simp [h0]), if_pos ⟨hne, h92⟩]
    · by_cases hlen : d.length ≤ 10
      · have step1 : normalizeDigits d DEFAULT_COUNTRY_CODE = '9' :: '2' :: d := by
          unfold normalizeDigits
          rw [if_neg (by simp [h0]), if_neg (by simp [h92]), if_pos ⟨hne, hlen⟩]
          rfl
        rw [step1]
        unfold normalizeDigits
        rw [if_neg (by simp [isPrefixOf_zero_nine]),
          if_pos ⟨hne, by rw [defaultCC_data]; exact isPrefixOf_nine_two _⟩]
      · have step1 : normalizeDigits d DEFAULT_COUNTRY_CODE = d := by
          unfold normalizeDigits
          rw [if_neg (by simp [h0]), if_neg (by simp [h92]), if_neg (by simp [hlen])]
        rw [step1]
        unfold normalizeDigits
        rw [if_neg (by simp [h0]), if_neg (by simp [h92]), if_neg (by simp [hlen])]

/-- Claim C3: normalizePhone is a pure total Lean function, and with the
configured default country code "92" it is idempotent: renormalizing its own
output (null staying null) reproduces that output for every input string. -/
theorem normalizePhone_idempotent (s : String) :
    normalizePhoneOpt (normalizePhone s DEFAULT_COUNTRY_CODE) DEFAULT_COUNTRY_CODE
      = normalizePhone s DEFAULT_COUNTRY_CODE := by
  by_cases hs : s = ""
  · simp [normalizePhone, hs, normalizePhoneOpt]
  · by_cases hd : s.data.filter Char.isDigit = []
    · simp [normalizePhone, hs, hd, normalizePhoneOpt]
    · have hfirst : normalizePhone s DEFAULT_COUNTRY_CODE
        = some (String.mk (normalizeDigits (s.data.filter Char.isDigit) DEFAULT_COUNTRY_CODE)) := by
        simp [normalizePhone, hs, hd]
      set r : List Char := normalizeDigits (s.data.filter Char.isDigit) DEFAULT_COUNTRY_CODE with hr
      have hrne : r ≠ [] := normalizeDigits_ne_nil _ hd
      have hrdig : ∀ c ∈ r, c.isDigit = true :=
        normalizeDigits_all_digit (by decide) (fun c hc => mem_filter_isDigit hc)
      rw [hfirst]
      show normalizePhone (String.mk r) DEFAULT_COUNTRY_CODE = some (String.mk r)
      unfold normalizePhone
      rw [if_neg (string_mk_ne_empty hrne)]
      show (if (String.mk r).data.filter Char.isDigit = [] then none
        else some (String.mk (normalizeDigits ((String.mk r).data.filter Char.isDigit) DEFAULT_COUNTRY_CODE)))
        = some (String.mk r)
      have hdata : (String.mk r).data = r := rfl
      rw [hdata, filter_isDigit_of_all hrdig, if_neg hrne, hr,
        normalizeDigits_92_idem]

/-- Claim C4: the reference values of the specification.  The empty string
normalizes to null; a local number with leading 0 has the 0 replaced by the
country code; an already-prefixed international number is returned
unchanged; a bare local number of at most 10 digits gets the country code
prepended. -/
theorem normalizePhone_reference_values :
    normalizePhone "" DEFAULT_COUNTRY_CODE = none ∧
    normalizePhone "03001234567" DEFAULT_COUNTRY_CODE = some "923001234567" ∧
    normalizePhone "923001234567" DEFAULT_COUNTRY_CODE = some "923001234567" ∧
    normalizePhone "3001234567" DEFAULT_COUNTRY_CODE = some "923001234567" := by
  refine ⟨by decide, by decide, by decide, by decide⟩

/-- Claim C10: for every raw input and every digit-only default country code,
normalizePhone returns null or a non-empty all-digit string, because the
source strips every non-digit and only ever prepends the country code. -/
theorem normalizePhone_digit_output (raw defaultCC : String)
    (hcc : ∀ c ∈ defaultCC.data, c.isDigit = true) :
    normalizePhone raw defaultCC = none ∨
    ∃ v, normalizePhone raw defaultCC = some v ∧ v ≠ "" ∧
      ∀ c ∈ v.data, c.isDigit = true := by
  by_cases hraw : raw = ""
  · left
    simp [normalizePhone, hraw]
  · by_cases hd : raw.data.filter Char.isDigit = []
    · left
      simp [normalizePhone, hraw, hd]
    · right
      refine ⟨String.mk (normalizeDigits (raw.data.filter Char.isDigit) defaultCC),
        by simp [normalizePhone, hraw, hd], ?_, ?_⟩
      · exact string_mk_ne_empty (normalizeDigits_ne_nil _ hd)
      · exact normalizeDigits_all_digit hcc (fun c hc => mem_filter_isDigit hc)

/-- Witness for claim C10 at a concrete input: a formatted local number with
punctuation normalizes to a non-empty all-digit canonical phone. -/
theorem normalizePhone_digit_output_witness :
    normalizePhone "0300-123 4567" "92" = none ∨
    ∃ v, normalizePhone "0300-123 4567" "92" = some v ∧ v ≠ "" ∧
      ∀ c ∈ v.data, c.isDigit = true :=
  normalizePhone_digit_output "0300-123 4567" "92" (by decide)

/-! ## Notification dispatcher (src/index.js:351-373 fetch variant,
src/unnamed/part_002:120-191 axios variant)

A dispatch request is recorded as the recipient, the template name, the
ordered body parameters and the button parameter values.  The provider's
HTTP answer is a WAResponse; a transport failure (the promise rejecting
before any HTTP response) is the none case.  JsResult distinguishes a value
returned to the caller from an exception thrown across the boundary. -/

structure Dispatch where
  recipient : String
  template : String
  body : List String
  buttons : List String
deriving DecidableEq

structure WAResponse where
  httpOk : Bool
  status : Nat
  body : String
deriving DecidableEq

inductive JsResult where
  | ok (body : String)
  | thrown (err : String)
deriving DecidableEq

/-- Embeds the fetch-based sendWhatsAppTemplate of src/index.js:351-373: the
function awaits one fetch call (fetch resolves even for 4xx/5xx statuses),
parses the json body, logs when res.ok is false, and returns the parsed body
either way; only a transport failure reaches the catch, which logs and
rethrows. -/
def sendWhatsAppTemplateFetch (transport : Option WAResponse) : JsResult :=
  match transport with
  | none => JsResult.thrown "fetch failed"
  | some res => JsResult.ok res.body

/-- Embeds the axios-based sendWhatsAppTemplate of
src/unnamed/part_002:120-191: axios rejects on every non-2xx HTTP status, so
the catch block logs and rethrows both transport failures and provider
4xx/5xx responses; only a 2xx response returns resp.data. -/
def sendWhatsAppTemplateAxios (transport : Option WAResponse) : JsResult :=
  match transport with
  | none => JsResult.thrown "network error"
  | some res => if res.httpOk then JsResult.ok res.body else JsResult.thrown res.body

/-! ## WhatsApp button-click handlers

Two variants of POST /webhook/whatsapp exist.  Both first resolve the
inbound sender to an order id and its stored record (payload order
reference, then order_name, then most recent order for the phone); the
models below start from that resolved point.  The part_002 variant
(lines 671-854) carries a duplicate guard; the src/index.js variant
(lines 680-754) does not.  Effects: the WhatsApp template dispatches, the
Shopify order-note writes, and the status value written to the order record
(together with updatedAt), none when the handler returns without writing. -/

structure OrderRec where
  status : String
  customerName : String
  order_name : String
  courier : String
  total : String
  currency : String
deriving DecidableEq

structure ButtonEffects where
  dispatches : List Dispatch
  notes : List (String × String)
  statusWrite : Option String
deriving DecidableEq

/-- Embeds the button branch of POST /webhook/whatsapp in
src/unnamed/part_002:761-824, after order resolution: action is the
payload segment before the colon, uppercased.  A status already confirmed
or cancelled short-circuits to a single order_already_processed dispatch;
otherwise the switch runs the action's note write and reply dispatch and
the new status (action_ prefixed for unknown payloads) is written. -/
def whatsappButtonGuarded (phone action orderId : String) (orderData : OrderRec) :
    ButtonEffects :=
  if orderData.status = "confirmed" ∨ orderData.status = "cancelled" then
    { dispatches := [⟨phone, "order_already_processed",
        [jsToUpper orderData.status, "https://wa.me/" ++ WHATSAPP_NUMBER_ID], []⟩],
      notes := [], statusWrite := none }
  else if action = "CONFIRM_ORDER" then
    { dispatches := [⟨phone, "order_confirmed_reply",
        [jsOr orderData.customerName "Customer", jsOr orderData.order_name orderId], []⟩],
      notes := [(orderId, "✅ Confirmed via WhatsApp")],
      statusWrite := some "confirmed" }
  else if action = "CANCEL_ORDER" then
    { dispatches := [⟨phone, "order_cancelled_reply_auto",
        [jsOr orderData.order_name orderId], []⟩],
      notes := [(orderId, "❌ Cancelled via WhatsApp")],
      statusWrite := some "cancelled" }
  else if action = "REDELIVER_TOMORROW" then
    { dispatches := [⟨phone, "redelivery_scheduled",
        [jsOr orderData.order_name orderId, "Tomorrow", "10am–6pm",
         jsOr orderData.courier "Courier",
         jsOr orderData.total "0" ++ " " ++ jsOr orderData.currency "PKR"], []⟩],
      notes := [(orderId, "📦 Redelivery requested: Tomorrow 10am–6pm")],
      statusWrite := some "redelivery" }
  else
    { dispatches := [], notes := [], statusWrite := some ("action_" ++ action) }

/-- Embeds the button branch of POST /webhook/whatsapp in
src/index.js:706-750, after the most-recent-order-for-phone lookup: no
duplicate guard exists, the switch on the raw payload picks the reply
template and new status, unknown payloads become status action_ payload,
and the status write always runs. -/
def whatsappButtonIndex (phone orderId : String) (meta : OrderRec) (payload : String) :
    ButtonEffects :=
  if payload = "CONFIRM_ORDER" then
    { dispatches := [⟨phone, "order_confirmed_reply", [meta.customerName, orderId], []⟩],
      notes := [], statusWrite := some "confirmed" }
  else if payload = "CANCEL_ORDER" then
    { dispatches := [⟨phone, "order_cancelled_reply_auto", [orderId], []⟩],
      notes := [], statusWrite := some "cancelled" }
  else if payload = "REDELIVER_TOMORROW" then
    { dispatches := [⟨phone, "redelivery_scheduled", [orderId, "Tomorrow", "10am–6pm"], []⟩],
      notes := [], statusWrite := some "redelivery" }
  else
    { dispatches := [], notes := [], statusWrite := some ("action_" ++ payload) }

/-! ## Courier status webhook (src/index.js:756-842, identical copy in
src/unnamed/part_002:858-944) -/

structure CourierEvent where
  phone : String
  orderId : String
  status : String
  tracking_url : String
  tracking_no : String
deriving DecidableEq

structure CourierMeta where
  customerName : String
  product : String
  status : String
  phone : String
  updatedAt : Nat
deriving DecidableEq

/-- The empty object used when no order record exists for the courier's
order id (`snap.exists() ? snap.val() : \x7b\x7d`). -/
def emptyCourierMeta : CourierMeta :=
  ⟨"", "", "", "", 0⟩

/-- Embeds POST /webhook/courier: returns the record written back by
orderRef.update(meta) (none when the handler exits before reaching it) and
the dispatches performed.  The handler always stamps meta.phone and
meta.updatedAt, switches on the lowercased courier status to pick template
and new status, and for an unknown status only logs - but still executes
the final orderRef.update(meta). -/
def courierWebhookHandler (now : Nat) (p : CourierEvent) (stored : Option CourierMeta) :
    Option CourierMeta × List Dispatch :=
  match normalizePhone p.phone DEFAULT_COUNTRY_CODE with
  | none => (none, [])
  | some phone =>
    if p.orderId = "" then (none, [])
    else
      let meta0 := stored.getD emptyCourierMeta
      let base : CourierMeta := { meta0 with phone := phone, updatedAt := now }
      let trackingUrl := jsOr p.tracking_url
        (if p.tracking_no ≠ "" then
          "https://" ++ "SHOPIFY_SHOP" ++ "/apps/track?tn=" ++ p.tracking_no
        else "")
      let s := jsToLower p.status
      if s = "shipped" then
        (some { base with status := "shipped" },
         [⟨phone, "your_order_is_shipped_2025", [p.orderId], [trackingUrl]⟩])
      else if s = "attempted" then
        (some { base with status := "attempted" },
         [⟨phone, "delivery_attempted",
           [jsOr meta0.customerName "Customer", p.orderId], []⟩])
      else if s = "pending" then
        (some { base with status := "pending_followup" },
         [⟨phone, "failed_delivery_followup",
           [jsOr meta0.customerName "Customer", p.orderId], []⟩])
      else if s = "delivered" then
        (some { base with status := "delivered" },
         [⟨phone, "order_delivered", [jsOr meta0.customerName "Customer", p.orderId], []⟩,
          ⟨phone, "request", [jsOr meta0.customerName "Customer"], []⟩])
      else if s = "rto" ∨ s = "return_initiated" then
        (some { base with status := "return_initiated" },
         [⟨phone, "return_initiated_cust", [p.orderId], []⟩])
      else if s = "dispatch_reminder" then
        (some { base with status := "dispatch_reminder" },
         [⟨phone, "order_dispatch_reminder",
           [jsOr meta0.customerName "Customer", p.orderId, jsOr meta0.product "Product"], []⟩])
      else
        (some base, [])

/-! ## Shopify order-created handlers

Three distinct order-created paths exist: POST /webhook/shopify/order in
src/unnamed/part_002:593-636 (saveCODOrder plus sendOrderConfirmation),
handleNewOrder in src/unnamed/part_002:1421-1449 (served by POST
/webhook/shopify/orders), and the order_placed webhook of the first program
in src/index.js:126-208. -/

structure ShopifyOrder where
  id : String
  name : String
  customer_first_name : String
  shipping_phone : String
  customer_phone : String
  total_price : String
  currency : String
  line_item_title : String
  line_item_qty : Nat
  shipping_address1 : String
deriving DecidableEq

/-- The object literal handed to saveCODOrder and sendOrderConfirmation by
the /webhook/shopify/order handler.  storeName is never set by that handler
(it stays undefined, modelled ""). -/
structure CODOrderArgs where
  id : String
  order_name : String
  customerName : String
  phone : String
  total : String
  currency : String
  product : String
  qty : Nat
  storeName : String
deriving DecidableEq

structure CODRecord where
  id : String
  order_name : String
  customerName : String
  phone : String
  total : String
  currency : String
  product : String
  qty : Nat
  storeName : String
  status : String
  createdAt : Nat
deriving DecidableEq

/-- Embeds saveCODOrder (src/unnamed/part_002:448-456): dbSet of the spread
order fields plus status PENDING_COD and createdAt Date.now(). -/
def saveCODOrder (now : Nat) (o : CODOrderArgs) : CODRecord :=
  { id := o.id, order_name := o.order_name, customerName := o.customerName,
    phone := o.phone, total := o.total, currency := o.currency,
    product := o.product, qty := o.qty, storeName := o.storeName,
    status := "PENDING_COD", createdAt := now }

/-- Embeds sendOrderConfirmation (src/unnamed/part_002:467-493): if the
order's phone does not normalize the function returns with no dispatch;
otherwise one order_confirmation template goes out with the seven body
parameters and the two quick-reply buttons carrying CONFIRM_ORDER and
CANCEL_ORDER payloads suffixed with the order id. -/
def sendOrderConfirmation (o : CODOrderArgs) : List Dispatch :=
  match normalizePhone o.phone DEFAULT_COUNTRY_CODE with
  | none => []
  | some phone =>
    [⟨phone, "order_confirmation",
      [jsOr o.customerName "Customer", jsOr o.order_name "-",
       jsOr o.product "Product",
       toString (if o.qty = 0 then 1 else o.qty),
       jsOr o.storeName "Silken Root", jsOr o.total "0", jsOr o.currency "PKR"],
      ["CONFIRM_ORDER:" ++ o.id, "CANCEL_ORDER:" ++ o.id]⟩]

/-- Embeds POST /webhook/shopify/order (src/unnamed/part_002:593-636):
fetchedOrderName is the name field returned by the external getOrderDetails
call ("" when absent).  The handler saves the COD record and then sends the
confirmation; both object literals resolve phone as
order.shipping_address?.phone || order.customer?.phone. -/
def shopifyOrderCreatedHandler (now : Nat) (fetchedOrderName : String)
    (order : ShopifyOrder) : CODRecord × List Dispatch :=
  let orderName := jsOr fetchedOrderName ("Order " ++ order.id)
  let phone := jsOr order.shipping_phone order.customer_phone
  let saveArgs : CODOrderArgs :=
    { id := order.id, order_name := order.name,
      customerName := jsOr order.customer_first_name "Customer",
      phone := phone, total := order.total_price, currency := order.currency,
      product := jsOr order.line_item_title "Product",
      qty := if order.line_item_qty = 0 then 1 else order.line_item_qty,
      storeName := "" }
  let sendArgs : CODOrderArgs :=
    { id := order.id, order_name := orderName,
      customerName := jsOr order.customer_first_name "Customer",
      phone := phone, total := order.total_price, currency := order.currency,
      product := jsOr order.line_item_title "Product",
      qty := if order.line_item_qty = 0 then 1 else order.line_item_qty,
      storeName := "" }
  (saveCODOrder now saveArgs, sendOrderConfirmation sendArgs)

structure NewOrderCustomer where
  name : String
  phone : Option String
  address : String
deriving DecidableEq

structure NewOrderRecord where
  orderId : String
  createdAt : Nat
  customer : NewOrderCustomer
  status : String
deriving DecidableEq

/-- Embeds handleNewOrder (src/unnamed/part_002:1421-1449): the record is
always persisted with status PENDING_CONFIRMATION (phone null when the
shipping phone does not resolve), and the order_confirmation template is
sent only when the shipping phone resolves.  The getOrderDetails result is
computed but unused by the record, so it is omitted. -/
def handleNewOrder (now : Nat) (order : ShopifyOrder) : NewOrderRecord × List Dispatch :=
  let customerPhone := normalizePhone order.shipping_phone DEFAULT_COUNTRY_CODE
  ({ orderId := order.id, createdAt := now,
     customer := { name := jsOr order.customer_first_name "Unknown",
                   phone := customerPhone,
                   address := order.shipping_address1 },
     status := "PENDING_CONFIRMATION" },
   match customerPhone with
   | none => []
   | some p => [⟨p, "order_confirmation", [], []⟩])

structure IndexOrderData where
  id : String
  shipping_phone : String
  billing_phone : String
  customer_first_name : String
  billing_first_name : String
  shipping_first_name : String
  total_price : String
  currency : String
  shipping_line_title : String
  shipping_tracking_url : String
  fulfillment_tracking_url : String
deriving DecidableEq

/-- Embeds POST /webhook/shopify of the first program in
src/index.js:126-208: respMsgId is the message id of the provider's
response used in the order note.  When the checkout phone does not
normalize the handler answers No phone and performs no dispatch and no
note; otherwise it sends the order_placed template with six positional
parameters and writes one order note. -/
def webhookShopifyIndex (respMsgId : String) (data : IndexOrderData) :
    List Dispatch × List (String × String) :=
  match normalizePhone (jsOr data.shipping_phone data.billing_phone)
      DEFAULT_COUNTRY_CODE with
  | none => ([], [])
  | some phone =>
    let firstName := jsOr data.customer_first_name
      (jsOr data.billing_first_name (jsOr data.shipping_first_name "Customer"))
    let trackingUrl := jsOr data.shipping_tracking_url
      (jsOr data.fulfillment_tracking_url "N/A")
    ([⟨phone, "order_placed",
       [firstName, data.id, jsOr data.total_price "0", jsOr data.currency "PKR",
        jsOr data.shipping_line_title "Courier", trackingUrl], []⟩],
     [(data.id, "WhatsApp: sent order_placed (msg: " ++ jsOr respMsgId "N/A" ++ ")")])

/-! ## Abandoned-checkout reminder sweep (src/index.js:890-919, identical
copy in src/unnamed/part_002:992-1021)

The hourly cron job reads every abandoned_checkouts record, and for each one
with reminded false and createdAt more than one hour old it awaits the
abandoned_checkout template send and then sets reminded true.  The provider
response to the send comes from the fetch-based dispatcher, which returns
normally even for a 4xx/5xx provider status, so the flag update runs no
matter what the response says - the response value is discarded. -/

structure AbandonedCheckout where
  phone : String
  checkoutId : String
  product : String
  url : String
  createdAt : Nat
  reminded : Bool
deriving DecidableEq

/-- The fallback recovery link DEFAULT_CHECKOUT_URL is referenced by the
source but defined nowhere in the repository; it is modelled as an opaque
configuration string. -/
def DEFAULT_CHECKOUT_URL : String := "DEFAULT_CHECKOUT_URL"

/-- One loop iteration of the reminder cron job on one checkout record:
resp is the provider's HTTP response to the reminder send, which the code
never inspects. -/
def reminderStep (now : Nat) (resp : WAResponse) (c : AbandonedCheckout) :
    AbandonedCheckout × List Dispatch :=
  if c.reminded = false ∧ 60 * 60 * 1000 < now - c.createdAt then
    ({ c with reminded := true },
     [⟨c.phone, "abandoned_checkout", ["Dear Customer", c.product],
       [jsOr c.url DEFAULT_CHECKOUT_URL]⟩])
  else (c, [])

/-- Embeds the full cron sweep over the abandoned_checkouts collection:
responses maps each checkout id to the provider response its send would
receive.  Returns the updated collection and every dispatch performed. -/
def reminderSweep (now : Nat) (responses : String → WAResponse) :
    List (String × AbandonedCheckout) →
      List (String × AbandonedCheckout) × List Dispatch
  | [] => ([], [])
  | (cid, c) :: rest =>
    let step := reminderStep now (responses cid) c
    let restResult := reminderSweep now responses rest
    ((cid, step.1) :: restResult.1, step.2 ++ restResult.2)

/-! ## Claims about the dispatchers and handlers -/

/-- Claim C8 counterexample: the axios-based sendWhatsAppTemplate throws
across its boundary on a provider 4xx response instead of returning the
provider's body, refuting the claim for that variant. -/
theorem dispatcher_axios_throws_counterexample :
    sendWhatsAppTemplateAxios (some ⟨false, 400, "Recipient not in allowed list"⟩)
      = JsResult.thrown "Recipient not in allowed list" ∧
    JsResult.thrown "Recipient not in allowed list"
      ≠ JsResult.ok "Recipient not in allowed list" :=
  ⟨by decide, by decide⟩

/-- Claim C8 (amended): the fetch-based sendWhatsAppTemplate performs its
single provider call and returns the parsed response body to the caller for
every HTTP response, including provider 4xx/5xx, without throwing; the
axios-based variant instead rethrows every non-success provider response to
its caller. -/
theorem dispatcher_fetch_returns_axios_throws :
    (∀ res : WAResponse, sendWhatsAppTemplateFetch (some res) = JsResult.ok res.body) ∧
    (∀ res : WAResponse, res.httpOk = false →
      sendWhatsAppTemplateAxios (some res) = JsResult.thrown res.body) := by
  refine ⟨fun res => rfl, fun res h => ?_⟩
  simp [sendWhatsAppTemplateAxios, h]

/-- Witness for claim C8 at concrete provider responses: a 2xx response is
returned by the fetch variant, and a 429 response is thrown by the axios
variant. -/
theorem dispatcher_fetch_returns_axios_throws_witness :
    sendWhatsAppTemplateFetch (some ⟨true, 200, "sent"⟩) = JsResult.ok "sent" ∧
    sendWhatsAppTemplateAxios (some ⟨false, 429, "rate limited"⟩)
      = JsResult.thrown "rate limited" :=
  ⟨dispatcher_fetch_returns_axios_throws.1 ⟨true, 200, "sent"⟩,
   dispatcher_fetch_returns_axios_throws.2 ⟨false, 429, "rate limited"⟩ rfl⟩

/-- Claim C1 counterexample: the src/index.js /webhook/whatsapp handler has
no duplicate guard, so a CONFIRM_ORDER button on an order already stored as
confirmed re-dispatches the order_confirmed_reply template and rewrites the
status instead of sending one informational already-processed template. -/
theorem indexButton_reconfirm_counterexample :
    whatsappButtonIndex "923001234567" "2002"
      ⟨"confirmed", "Sara", "#2002", "TCS", "2500", "PKR"⟩ "CONFIRM_ORDER"
      = ⟨[⟨"923001234567", "order_confirmed_reply", ["Sara", "2002"], []⟩], [],
         some "confirmed"⟩ ∧
    "order_already_processed" ∉
      (whatsappButtonIndex "923001234567" "2002"
        ⟨"confirmed", "Sara", "#2002", "TCS", "2500", "PKR"⟩
        "CONFIRM_ORDER").dispatches.map Dispatch.template :=
  ⟨by decide, by decide⟩

/-- Claim C1 (amended): in the part_002 /webhook/whatsapp handler, a button
event for an order whose stored status is already confirmed or cancelled
writes no status, writes no order note, and dispatches exactly one
informational order_already_processed template; the src/index.js variant of
the handler lacks this guard and re-runs the original dispatch and status
write. -/
theorem guardedButton_terminal_suppression (phone action orderId : String)
    (od : OrderRec) (h : od.status = "confirmed" ∨ od.status = "cancelled") :
    whatsappButtonGuarded phone action orderId od
      = ⟨[⟨phone, "order_already_processed",
          [jsToUpper od.status, "https://wa.me/" ++ WHATSAPP_NUMBER_ID], []⟩], [], none⟩ := by
  unfold whatsappButtonGuarded
  rw [if_pos h]

/-- Witness for claim C1: a CANCEL_ORDER button on an already-cancelled
order yields only the informational dispatch. -/
theorem guardedButton_terminal_suppression_witness :
    whatsappButtonGuarded "923009998877" "CANCEL_ORDER" "3003"
      ⟨"cancelled", "Omar", "#3003", "PostEx", "1500", "PKR"⟩
      = ⟨[⟨"923009998877", "order_already_processed",
          [jsToUpper "cancelled", "https://wa.me/" ++ WHATSAPP_NUMBER_ID], []⟩], [], none⟩ :=
  guardedButton_terminal_suppression _ _ _ _ (Or.inr rfl)

/-- Claim C7 counterexample: an unknown button payload does not leave the
order record unchanged - the src/index.js handler writes the status field
action_ payload (with updatedAt) for it. -/
theorem unknown_button_payload_writes_status :
    whatsappButtonIndex "923001234567" "1001"
      ⟨"pending", "Ali", "#1001", "TCS", "4500", "PKR"⟩ "SOME_UNKNOWN_ACTION"
      = ⟨[], [], some "action_SOME_UNKNOWN_ACTION"⟩ ∧
    (some "action_SOME_UNKNOWN_ACTION" : Option String) ≠ none :=
  ⟨by decide, by decide⟩

/-- Claim C7 (amended): an unknown button payload performs no dispatch and
no note write but sets the order's status to action_ payload with updatedAt;
an unknown courier status performs no dispatch and leaves the status field
unchanged, but the handler still merges the normalized phone and a fresh
updatedAt into the order record. -/
theorem unknown_trigger_effects :
    (∀ phone orderId meta payload,
      payload ∉ (["CONFIRM_ORDER", "CANCEL_ORDER", "REDELIVER_TOMORROW"] : List String) →
      whatsappButtonIndex phone orderId meta payload
        = ⟨[], [], some ("action_" ++ payload)⟩) ∧
    (∀ now p stored phone,
      normalizePhone p.phone DEFAULT_COUNTRY_CODE = some phone →
      p.orderId ≠ "" →
      jsToLower p.status ∉ (["shipped", "attempted", "pending", "delivered", "rto",
        "return_initiated", "dispatch_reminder"] : List String) →
      courierWebhookHandler now p stored
        = (some { stored.getD emptyCourierMeta with
            phone := phone, updatedAt := now }, [])) := by
  constructor
  · intro phone orderId meta payload hp
    have h1 : payload ≠ "CONFIRM_ORDER" := fun h => hp (by rw [h]; decide)
    have h2 : payload ≠ "CANCEL_ORDER" := fun h => hp (by rw [h]; decide)
    have h3 : payload ≠ "REDELIVER_TOMORROW" := fun h => hp (by rw [h]; decide)
    simp [whatsappButtonIndex, h1, h2, h3]
  · intro now p stored phone hph hid hs
    have h1 : jsToLower p.status ≠ "shipped" := fun h => hs (by rw [h]; decide)
    have h2 : jsToLower p.status ≠ "attempted" := fun h => hs (by rw [h]; decide)
    have h3 : jsToLower p.status ≠ "pending" := fun h => hs (by rw [h]; decide)
    have h4 : jsToLower p.status ≠ "delivered" := fun h => hs (by rw [h]; decide)
    have h5 : jsToLower p.status ≠ "rto" := fun h => hs (by rw [h]; decide)
    have h6 : jsToLower p.status ≠ "return_initiated" := fun h => hs (by rw [h]; decide)
    have h7 : jsToLower p.status ≠ "dispatch_reminder" := fun h => hs (by rw [h]; decide)
    simp [courierWebhookHandler, hph, hid, h1, h2, h3, h4, h5, h6, h7]

/-- Witness for claim C7: an unknown HELP payload and a courier event with
status weird_status, evaluated concretely. -/
theorem unknown_trigger_effects_witness :
    whatsappButtonIndex "923001234567" "1001"
      ⟨"pending", "Ali", "#1001", "TCS", "4500", "PKR"⟩ "HELP"
      = ⟨[], [], some ("action_" ++ "HELP")⟩ ∧
    courierWebhookHandler 9999 ⟨"03001234567", "1001", "weird_status", "", ""⟩
      (some ⟨"Ali", "Widget", "shipped", "923001234567", 5⟩)
      = (some { (some (⟨"Ali", "Widget", "shipped", "923001234567", 5⟩ : CourierMeta)).getD
          emptyCourierMeta with phone := "923001234567", updatedAt := 9999 }, []) :=
  ⟨unknown_trigger_effects.1 "923001234567" "1001"
      ⟨"pending", "Ali", "#1001", "TCS", "4500", "PKR"⟩ "HELP" (by decide),
   unknown_trigger_effects.2 9999 ⟨"03001234567", "1001", "weird_status", "", ""⟩
      (some ⟨"Ali", "Widget", "shipped", "923001234567", 5⟩) "923001234567"
      (by decide) (by decide) (by decide)⟩

/-- Claim C2 counterexample: an order-created event with a resolvable phone
is persisted with status PENDING_COD, not pending_confirmation as the claim
states. -/
theorem orderCreated_status_counterexample :
    normalizePhone (jsOr "03001234567" "") DEFAULT_COUNTRY_CODE = some "923001234567" ∧
    (shopifyOrderCreatedHandler 2000 ""
      ⟨"6001", "#6001", "Bilal", "03001234567", "", "900", "PKR", "Lamp", 2,
        "Street 4"⟩).1.status = "PENDING_COD" ∧
    ("PENDING_COD" : String) ≠ "pending_confirmation" :=
  ⟨by decide, rfl, by decide⟩

/-- Claim C2 (amended): for every order-created event on
/webhook/shopify/order whose phone field resolves, the handler dispatches
exactly one order_confirmation template to the canonical phone and persists
the order record with status PENDING_COD. -/
theorem orderCreated_single_confirmation_dispatch (now : Nat)
    (fetchedOrderName : String) (order : ShopifyOrder) (p : String)
    (h : normalizePhone (jsOr order.shipping_phone order.customer_phone)
      DEFAULT_COUNTRY_CODE = some p) :
    ((shopifyOrderCreatedHandler now fetchedOrderName order).2.map Dispatch.template
      = ["order_confirmation"]) ∧
    ((shopifyOrderCreatedHandler now fetchedOrderName order).2.map Dispatch.recipient
      = [p]) ∧
    (shopifyOrderCreatedHandler now fetchedOrderName order).1.status = "PENDING_COD" := by
  refine ⟨?_, ?_, rfl⟩ <;>
    simp [shopifyOrderCreatedHandler, sendOrderConfirmation, h]

/-- Witness for claim C2: a concrete order with checkout phone 03001234567
produces one order_confirmation dispatch to 923001234567 and a PENDING_COD
record. -/
theorem orderCreated_single_confirmation_dispatch_witness :
    ((shopifyOrderCreatedHandler 1000 "#1001"
      ⟨"5001", "#1001", "Ayesha", "03001234567", "", "500", "PKR", "Widget", 1,
        "Street 9"⟩).2.map Dispatch.template = ["order_confirmation"]) ∧
    ((shopifyOrderCreatedHandler 1000 "#1001"
      ⟨"5001", "#1001", "Ayesha", "03001234567", "", "500", "PKR", "Widget", 1,
        "Street 9"⟩).2.map Dispatch.recipient = ["923001234567"]) ∧
    (shopifyOrderCreatedHandler 1000 "#1001"
      ⟨"5001", "#1001", "Ayesha", "03001234567", "", "500", "PKR", "Widget", 1,
        "Street 9"⟩).1.status = "PENDING_COD" :=
  orderCreated_single_confirmation_dispatch 1000 "#1001"
    ⟨"5001", "#1001", "Ayesha", "03001234567", "", "500", "PKR", "Widget", 1, "Street 9"⟩
    "923001234567" (by decide)

/-- Claim C9 counterexample: an order-created event whose phone does not
resolve still commits an order record (status PENDING_CONFIRMATION, phone
null) through handleNewOrder, refuting the no-state-change part of the
claim even though zero dispatches occur. -/
theorem no_phone_record_still_written :
    normalizePhone "" DEFAULT_COUNTRY_CODE = none ∧
    handleNewOrder 900 ⟨"9001", "#9001", "Zara", "", "", "750", "PKR", "Vase", 1, "Street 2"⟩
      = (⟨"9001", 900, ⟨"Zara", none, "Street 2"⟩, "PENDING_CONFIRMATION"⟩, []) :=
  ⟨rfl, by decide⟩

/-- Claim C9 (amended): an order-created event with no resolvable phone
performs zero template dispatches everywhere; the src/index.js handler also
performs no note write and drops the event, but handleNewOrder still
persists the order record with status PENDING_CONFIRMATION and a null
phone. -/
theorem no_phone_zero_dispatch_record_written :
    (∀ now order, normalizePhone order.shipping_phone DEFAULT_COUNTRY_CODE = none →
      (handleNewOrder now order).2 = [] ∧
      (handleNewOrder now order).1.status = "PENDING_CONFIRMATION" ∧
      (handleNewOrder now order).1.customer.phone = none) ∧
    (∀ respMsgId data,
      normalizePhone (jsOr data.shipping_phone data.billing_phone)
        DEFAULT_COUNTRY_CODE = none →
      webhookShopifyIndex respMsgId data = ([], [])) := by
  constructor
  · intro now order h
    refine ⟨?_, rfl, ?_⟩ <;> simp [handleNewOrder, h]
  · intro respMsgId data h
    simp [webhookShopifyIndex, h]

/-- Witness for claim C9 at concrete no-phone events for both handlers. -/
theorem no_phone_zero_dispatch_record_written_witness :
    ((handleNewOrder 500 ⟨"7001", "#7001", "", "", "", "0", "PKR", "", 0, ""⟩).2 = [] ∧
     (handleNewOrder 500
       ⟨"7001", "#7001", "", "", "", "0", "PKR", "", 0, ""⟩).1.status
       = "PENDING_CONFIRMATION" ∧
     (handleNewOrder 500
       ⟨"7001", "#7001", "", "", "", "0", "PKR", "", 0, ""⟩).1.customer.phone = none) ∧
    webhookShopifyIndex "m1" ⟨"8001", "", "", "", "", "", "", "", "", "", ""⟩ = ([], []) :=
  ⟨no_phone_zero_dispatch_record_written.1 500
      ⟨"7001", "#7001", "", "", "", "0", "PKR", "", 0, ""⟩ (by decide),
   no_phone_zero_dispatch_record_written.2 "m1"
      ⟨"8001", "", "", "", "", "", "", "", "", "", ""⟩ (by decide)⟩

/-! ## Claims about the reminder sweep -/

theorem reminderStep_then_skip (now : Nat) (r1 r2 : WAResponse) (c : AbandonedCheckout) :
    (reminderStep now r2 (reminderStep now r1 c).1).2 = [] := by
  by_cases h : c.reminded = false ∧ 60 * 60 * 1000 < now - c.createdAt
  · have h1 : (reminderStep now r1 c).1 = { c with reminded := true } := by
      unfold reminderStep
      rw [if_pos h]
    rw [h1]
    unfold reminderStep
    rw [if_neg (by simp)]
  · have h1 : (reminderStep now r1 c).1 = c := by
      unfold reminderStep
      rw [if_neg h]
    rw [h1]
    unfold reminderStep
    rw [if_neg h]

/-- Claim C5: running the reminder sweep a second time over the store state
left by a first sweep at the same clock value dispatches nothing, whatever
the provider answered: every record the first sweep acted on now carries
reminded = true, and every other record still fails the qualification
test. -/
theorem reminderSweep_second_run_empty (now : Nat) (r1 r2 : String → WAResponse)
    (store : List (String × AbandonedCheckout)) :
    (reminderSweep now r2 (reminderSweep now r1 store).1).2 = [] := by
  induction store with
  | nil => rfl
  | cons hd tl ih =>
    obtain ⟨cid, c⟩ := hd
    simp only [reminderSweep]
    rw [reminderStep_then_skip, ih]
    rfl

/-- Claim C6 counterexample: the sweep sets reminded to true even when the
provider's response to the reminder send is a 500 failure - the fetch-based
dispatcher returns normally on provider errors and the sweep never inspects
the returned value. -/
theorem reminderStep_flag_set_on_provider_failure :
    (⟨false, 500, "Internal Server Error"⟩ : WAResponse).httpOk = false ∧
    (reminderStep 7200000 ⟨false, 500, "Internal Server Error"⟩
      ⟨"923001234567", "chk1", "Widget", "https://example.com/checkout", 0,
        false⟩).1.reminded = true :=
  ⟨rfl, by decide⟩

/-- Claim C6 (amended): for every qualifying abandoned-checkout record the
sweep dispatches the reminder and then sets reminded to true regardless of
the provider's response; a provider-rejected reminder send is therefore not
retried on the next sweep (only a thrown transport error would skip the
flag update). -/
theorem reminderStep_flag_set_regardless (now : Nat) (resp : WAResponse)
    (c : AbandonedCheckout) (h1 : c.reminded = false)
    (h2 : 60 * 60 * 1000 < now - c.createdAt) :
    (reminderStep now resp c).1.reminded = true ∧
    (reminderStep now resp c).2.map Dispatch.template = ["abandoned_checkout"] := by
  unfold reminderStep
  rw [if_pos ⟨h1, h2⟩]
  exact ⟨rfl, rfl⟩

/-- Witness for claim C6 at a concrete qualifying record and a concrete
provider rejection. -/
theorem reminderStep_flag_set_regardless_witness :
    (reminderStep 4000000 ⟨false, 400, "bad request"⟩
      ⟨"923331112233", "chk9", "Mug", "https://example.com/c9", 100,
        false⟩).1.reminded = true ∧
    (reminderStep 4000000 ⟨false, 400, "bad request"⟩
      ⟨"923331112233", "chk9", "Mug", "https://example.com/c9", 100,
        false⟩).2.map Dispatch.template = ["abandoned_checkout"] :=
  reminderStep_flag_set_regardless 4000000 ⟨false, 400, "bad request"⟩
    ⟨"923331112233", "chk9", "Mug", "https://example.com/c9", 100, false⟩
    rfl (by decide)
